import Mathlib

/-!
# A shallow embedding of the cinnamon_core registration/configuration engine

This file embeds, in Lean 4, the parts of `cinnamon_core` (files
`core/registry.py`, `core/configuration.py`, `core/component.py`,
`utility/python_utility.py`) that the verified claims are about:

* `RegistrationKey` with its `partial_match` comparison;
* the `Param`/`Configuration` data model with `add`, `add_condition`,
  `get`, `validate`, `fully_validate`, `post_build`, `get_delta_copy`
  and `get_variants_combinations`;
* `get_dict_values_combinations` from `python_utility.py`;
* the `Registry` process-wide state with `clear`,
  `check_registration_graph` and `build_component_from_key`.

Python exceptions are modelled with `Except` over an explicit error
type; Python's `dict` (insertion ordered) is modelled by association
lists; Python `set` objects are modelled by `Finset String` where set
algebra matters (`RegistrationKey.tags`) and by duplicate-free string
lists where only membership matters (`Param.tags`).  Arbitrary Python
callables stored as condition values are modelled by the deep embedding
`CondExpr`, which covers exactly the condition shapes the source
synthesises plus constant conditions used for concrete test
configurations.  Recursion through nested configurations (Python's
call stack) is bounded by an explicit fuel argument; exhausting it is
modelled as Python's `RecursionError`.
-/

/-- The Python exceptions raised by the embedded code. -/
inductive PyError where
  | keyError
  | attributeError
  | typeError
  | runtimeError
  | recursionError
  | validationFailure
  | notRegistered
  | notBound
  | alreadyRegistered
  | alreadyBound
  | invalidConfigurationType
  | disconnectedGraph
  | notADAG
  deriving DecidableEq, Repr

/-- A printable rendering of an exception, standing in for Python's `str(e)`
(used by `fully_validate` when it converts a `post_build` exception into a
non-strict `ValidationResult`). -/
def PyError.str : PyError → String
  | .keyError => "KeyError"
  | .attributeError => "AttributeError"
  | .typeError => "TypeError"
  | .runtimeError => "RuntimeError"
  | .recursionError => "RecursionError"
  | .validationFailure => "ValidationFailureException"
  | .notRegistered => "NotRegisteredException"
  | .notBound => "NotBoundException"
  | .alreadyRegistered => "AlreadyRegisteredException"
  | .alreadyBound => "AlreadyBoundException"
  | .invalidConfigurationType => "InvalidConfigurationTypeException"
  | .disconnectedGraph => "DisconnectedGraphException"
  | .notADAG => "NotADAGException"

/-- Model of `RegistrationKey` (registry.py, lines 21-178): compound identifier
`(name, namespace, tags)`.  The `tags` attribute is `Option` because the
Python attribute may in principle be `None` (the code guards for it in
`partial_match`), although the constructor normalises `None` to the empty
set.  `namespace` is a Lean keyword, so the field is called `nspace`. -/
structure RegistrationKey where
  name : String
  nspace : String
  tags : Option (Finset String)
  deriving DecidableEq

/-- The `RegistrationKey.__init__` constructor: `namespace` falls back to
`'default'` when `None` is passed explicitly, and `tags=None` is replaced
by the empty set. -/
def RegistrationKey.make (name : String) (nspace : Option String)
    (tags : Option (Finset String)) : RegistrationKey :=
  { name := name
    nspace := nspace.getD "default"
    tags := some (tags.getD ∅) }

/-- Model of `RegistrationKey.partial_match` (registry.py, lines 95-124): name and
namespace must agree, and either both tag sets are `None`, or both are
non-`None` and `self.tags ∩ other.tags` equals one of the two sides. -/
def RegistrationKey.partial_match (self other : RegistrationKey) : Bool :=
  let nameCondition := self.name = other.name
  let namespaceCondition := self.nspace = other.nspace
  let tagsCondition : Bool :=
    match self.tags, other.tags with
    | some selfTags, some otherTags =>
        -- tags_non_null_condition ∧ tags_intersection_condition
        decide (selfTags ∩ otherTags = otherTags) ||
          decide (selfTags ∩ otherTags = selfTags)
    | none, none => true       -- tags_null_condition
    | _, _ => false
  decide nameCondition && tagsCondition && decide namespaceCondition

/-- C9: for keys with non-null tag sets, `partial_match(a, b)` holds iff the
names agree, the namespaces agree, and one tag set is a subset of the
other. -/
theorem partial_match_iff_two_sided_subset (a b : RegistrationKey)
    (ta tb : Finset String) (hA : a.tags = some ta) (hB : b.tags = some tb) :
    a.partial_match b = true ↔
      (a.name = b.name ∧ a.nspace = b.nspace ∧ (ta ⊆ tb ∨ tb ⊆ ta)) := by
  simp only [RegistrationKey.partial_match, hA, hB, Bool.and_eq_true,
    Bool.or_eq_true, decide_eq_true_eq]
  constructor
  · rintro ⟨⟨hname, htags⟩, hns⟩
    refine ⟨hname, hns, ?_⟩
    rcases htags with h | h
    · exact Or.inr (Finset.inter_eq_right.mp h)
    · exact Or.inl (Finset.inter_eq_left.mp h)
  · rintro ⟨hname, hns, hsub⟩
    refine ⟨⟨hname, ?_⟩, hns⟩
    rcases hsub with h | h
    · exact Or.inr (Finset.inter_eq_left.mpr h)
    · exact Or.inl (Finset.inter_eq_right.mpr h)

/-- Witness for C9 at concrete keys: `{x} ⊆ {x, y}` gives a partial match. -/
theorem partial_match_witness :
    RegistrationKey.partial_match ⟨"model", "generic", some {"x"}⟩
      ⟨"model", "generic", some {"x", "y"}⟩ = true :=
  (partial_match_iff_two_sided_subset _ _ {"x"} {"x", "y"} rfl rfl).mpr
    ⟨rfl, rfl, by decide⟩

/-- The runtime type descriptors used as `type_hint` annotations in the
embedded configurations (`typeguard.check_type` targets). -/
inductive PyType where
  | tBool
  | tInt
  | tStr
  | tRegistrationKey
  | tComponent
  deriving DecidableEq, Repr

mutual

/-- Python values stored in `Param.value` slots.  `vcond` is a condition
callable (deep-embedded, see `CondExpr`); `vcomp` is a built `Component`
(component.py: a class holding exactly one `Configuration`). -/
inductive Value where
  | vnone
  | vbool (b : Bool)
  | vint (n : Int)
  | vstr (s : String)
  | vkey (k : RegistrationKey)
  | vlist (vs : List Value)
  | vdict (entries : List (String × Value))
  | vcond (c : CondExpr)
  | vcomp (comp : Component)

/-- Deep embedding of the condition callables stored by
`Configuration.add` / `add_condition` (configuration.py).  The first five
constructors are exactly the lambdas synthesised by `add`; `constCond`
stands for a user-supplied constant condition. -/
inductive CondExpr where
  | requiredIsNotNone (name : String)
  | typecheck (name : String) (ty : PyType)
  | postBuildTypecheck (name : String) (ty : PyType)
  | variantsNonempty (name : String)
  | constCond (b : Bool)

/-- Model of `Param` (configuration.py, lines 70-171).  `tags` is a Python set of
strings; set algebra is never used on it by the embedded operations (only
membership and overwrite), so it is carried as a duplicate-free list.
`allowed_range` (an arbitrary Python callable) and `description` are
metadata not branched on by any claim's code path and are omitted. -/
inductive Param where
  | mk (name : String) (value : Value) (type_hint : Option PyType)
      (tags : List String) (is_required : Bool) (is_child : Bool)
      (build_type_hint : Option PyType) (variants : Option (List Value))

/-- Model of `Configuration` (configuration.py): its `__dict__`, an insertion-ordered
mapping of attribute names to `Param` objects (every attribute set on a
configuration is wrapped in a `Param` by `__setattr__`).  `cls` records the
runtime class name (`type(self).__name__`), used as the `source` of
validation results and compared by the registry's type check. -/
inductive Config where
  | mk (cls : String) (params : List Param)

/-- Model of `Component` (component.py): holds its class name and exactly one
`Configuration`, plus the keyword arguments it was instantiated with
(`build_args` in `Registry.build_component_from_key`). -/
inductive Component where
  | mk (cls : String) (config : Config) (args : List (String × Value))

end

def Param.name : Param → String
  | .mk n _ _ _ _ _ _ _ => n

def Param.value : Param → Value
  | .mk _ v _ _ _ _ _ _ => v

def Param.type_hint : Param → Option PyType
  | .mk _ _ t _ _ _ _ _ => t

def Param.tags : Param → List String
  | .mk _ _ _ t _ _ _ _ => t

def Param.is_required : Param → Bool
  | .mk _ _ _ _ r _ _ _ => r

def Param.is_child : Param → Bool
  | .mk _ _ _ _ _ c _ _ => c

def Param.build_type_hint : Param → Option PyType
  | .mk _ _ _ _ _ _ b _ => b

def Param.variants : Param → Option (List Value)
  | .mk _ _ _ _ _ _ _ v => v

def Config.cls : Config → String
  | .mk c _ => c

def Config.params : Config → List Param
  | .mk _ ps => ps

def Component.cls : Component → String
  | .mk c _ _ => c

def Component.config : Component → Config
  | .mk _ cfg _ => cfg

def Component.args : Component → List (String × Value)
  | .mk _ _ a => a

/-- Python truthiness (`if self.built:` style tests). -/
def Value.truthy : Value → Bool
  | .vnone => false
  | .vbool b => b
  | .vint n => decide (n ≠ 0)
  | .vstr s => decide (s ≠ "")
  | .vlist vs => !vs.isEmpty
  | .vdict es => !es.isEmpty
  | .vkey _ => true
  | .vcond _ => true
  | .vcomp _ => true

/-- Model of `typeguard.check_type` success, on the value shapes the embedding uses.
`None` fails every (non-optional) hint; Python's `bool` is a subclass of
`int`, so a boolean satisfies an `int` hint. -/
def Value.typeMatches : Value → PyType → Bool
  | .vbool _, .tBool => true
  | .vbool _, .tInt => true
  | .vint _, .tInt => true
  | .vstr _, .tStr => true
  | .vkey _, .tRegistrationKey => true
  | .vcomp _, .tComponent => true
  | _, _ => false

/-- Lookup of a name in the configuration's `__dict__`. -/
def Config.lookupParam (cfg : Config) (name : String) : Option Param :=
  cfg.params.find? (fun p => p.name == name)

/-- Model of `self.__dict__[name]`: a plain dictionary subscript, raising `KeyError`
when the name is absent. -/
def Config.dictGetitem (cfg : Config) (name : String) : Except PyError Param :=
  match cfg.lookupParam name with
  | some p => .ok p
  | none => .error .keyError

/-- The two possible results of `Configuration.get`: the stored `Param`
object, or the caller-supplied default. -/
inductive GetResult where
  | param (p : Param)
  | default (v : Value)

/-- Model of `Configuration.get` (configuration.py, lines 272-280):
`try: return self.__dict__[name] except AttributeError: return default`.
The `try` body performs a dictionary subscript; only `AttributeError` is
handled. -/
def Config.get (cfg : Config) (name : String) (default : Value) :
    Except PyError GetResult :=
  match cfg.dictGetitem name with
  | .ok p => .ok (.param p)
  | .error e => if e = .attributeError then .ok (.default default) else .error e

/-- The `params` property: attributes that are `Param`s without the
`condition` tag. -/
def Config.paramsProperty (cfg : Config) : List Param :=
  cfg.params.filter (fun p => !(p.tags.contains "condition"))

/-- The `conditions` property: attributes tagged `condition`. -/
def Config.conditionsProperty (cfg : Config) : List Param :=
  cfg.params.filter (fun p => p.tags.contains "condition")

/-- The `children` property: attributes with `is_child` set. -/
def Config.childrenProperty (cfg : Config) : List Param :=
  cfg.params.filter (fun p => p.is_child)

/-- Reading `self.built` (through `__getattribute__`, which unwraps the
`Param` to its value) and applying Python truthiness.  Every configuration
produced by `Configuration.__init__` has the `built` attribute; on a raw
object without it the attribute read would raise, which no claim
exercises. -/
def Config.builtFlag (cfg : Config) : Bool :=
  match cfg.lookupParam "built" with
  | some p => p.value.truthy
  | none => false

/-- Python `set.add` on a tag list: insert if absent, preserving order. -/
def insertTag (t : String) (tags : List String) : List String :=
  if tags.contains t then tags else tags ++ [t]

/-- The `Param.__init__` constructor (configuration.py, lines 78-123): wraps
the fields and adds the `required` / `child` tags when the corresponding
flags are set. -/
def Param.make (name : String) (value : Value) (type_hint : Option PyType)
    (tags : Option (List String)) (is_required is_child : Bool)
    (build_type_hint : Option PyType) (variants : Option (List Value)) :
    Param :=
  let tags := tags.getD []
  let tags := if is_required then insertTag "required" tags else tags
  let tags := if is_child then insertTag "child" tags else tags
  .mk name value type_hint tags is_required is_child build_type_hint variants

/-- The body of `Configuration.add` before condition synthesis
(configuration.py, lines 311-333): if the name is present, merge (a field is
overwritten only when the corresponding argument is not `None`; `is_required`
and `is_child` are never touched on merge); otherwise append a fresh
`Param`. -/
def Config.addParamOnly (cfg : Config) (name : String) (value : Value)
    (type_hint : Option PyType) (tags : Option (List String))
    (is_required is_child : Bool) (build_type_hint : Option PyType)
    (variants : Option (List Value)) : Config :=
  -- `if is_child: type_hint = core.registry.RegistrationKey`
  let type_hint := if is_child then some PyType.tRegistrationKey else type_hint
  match cfg.lookupParam name with
  | some _ =>
      .mk cfg.cls (cfg.params.map (fun p =>
        if p.name == name then
          .mk p.name
            (match value with | .vnone => p.value | v => v)
            (match type_hint with | some t => some t | none => p.type_hint)
            (tags.getD p.tags)
            p.is_required p.is_child
            (match build_type_hint with
             | some t => some t | none => p.build_type_hint)
            (match variants with | some v => some v | none => p.variants)
        else p))
  | none =>
      .mk cfg.cls (cfg.params ++
        [Param.make name value type_hint tags is_required is_child
          build_type_hint variants])

/-- Model of `Configuration.add_condition` (configuration.py, lines 368-390): the
condition callable is stored as an ordinary `Param` whose tag set receives
`condition`; the delegated `self.add(...)` call passes no type hint and no
flags, so it reduces to the insert/merge step with no further condition
synthesis. -/
def Config.add_condition (cfg : Config) (cond : CondExpr) (name : String)
    (tags : Option (List String)) : Config :=
  let tags := insertTag "condition" (tags.getD [])
  cfg.addParamOnly name (.vcond cond) none (some tags) false false none none

/-- Model of `Configuration.add` (configuration.py, lines 282-366): insert or merge
the `Param`, then synthesise the derived conditions, in source order:
`{name}_is_required` when `is_required`; `{name}_typecheck` (tags
`typechecking`, `pre-built`) when a type hint is present (which is always
the case for children, whose hint is forced to `RegistrationKey`);
`post_{name}_build_typecheck` (tags `typechecking`, `post-built`) when
`is_child` and a build type hint is given; `{name}_valid_variants` (tag
`variants`) when `variants` is not `None`.  The `allowed_range` branch
concerns the omitted callable field and no claim's input uses it. -/
def Config.add (cfg : Config) (name : String) (value : Value)
    (type_hint : Option PyType) (tags : Option (List String))
    (is_required is_child : Bool) (build_type_hint : Option PyType)
    (variants : Option (List Value)) : Config :=
  let type_hint := if is_child then some PyType.tRegistrationKey else type_hint
  let cfg := cfg.addParamOnly name value type_hint tags is_required is_child
    build_type_hint variants
  let cfg := if is_required then
      cfg.add_condition (.requiredIsNotNone name) (name ++ "_is_required") none
    else cfg
  let cfg := match type_hint with
    | some ty => cfg.add_condition (.typecheck name ty) (name ++ "_typecheck")
        (some ["typechecking", "pre-built"])
    | none => cfg
  let cfg := match build_type_hint with
    | some ty =>
        if is_child then
          cfg.add_condition (.postBuildTypecheck name ty)
            ("post_" ++ name ++ "_build_typecheck")
            (some ["typechecking", "post-built"])
        else cfg
    | none => cfg
  let cfg := match variants with
    | some _ => cfg.add_condition (.variantsNonempty name)
        (name ++ "_valid_variants") (some ["variants"])
    | none => cfg
  cfg

/-- Model of `Configuration.__setattr__`: every attribute assignment goes through
`self.add(name=key, value=value)`. -/
def Config.setattr (cfg : Config) (key : String) (value : Value) : Config :=
  cfg.add key value none none false false none none

/-- Model of `Configuration.__init__` (configuration.py, lines 209-222): add each
keyword argument as a plain parameter, then add the `built` status
parameter (`value=False`, `type_hint=bool`, `is_required=True`). -/
def Config.init (cls : String) (kwargs : List (String × Value)) : Config :=
  let cfg := kwargs.foldl
    (fun c kv => c.add kv.1 kv.2 none none false false none none)
    (Config.mk cls [])
  cfg.add "built" (.vbool false) (some .tBool) none true false none none

/-- Evaluation of the condition callables against a configuration
(the lambdas in `Configuration.add`, plus `typing_condition`,
configuration.py lines 174-186).

* `requiredIsNotNone`: `lambda config: config.get(name) is not None` —
  `get` returns the `Param` *object* (or raises `KeyError`), so the result
  is `True` whenever the parameter exists;
* `typecheck`: `typing_condition` fetches the `Param` via `get` and runs
  `check_type` under `try/except TypeError`;
* `postBuildTypecheck`: the stored lambda calls
  `partial(typing_condition, param_name=name, type_hint=...)`, but
  `typing_condition` has no `param_name` argument, so the call itself
  raises `TypeError` (uncaught — the `try` block is never entered);
* `variantsNonempty`: `lambda p: len(p.get(name).variants) > 0`; if the
  stored `variants` is `None`, `len(None)` raises `TypeError`. -/
def CondExpr.eval (c : CondExpr) (cfg : Config) : Except PyError Bool :=
  match c with
  | .requiredIsNotNone name =>
      match cfg.get name .vnone with
      | .ok (.param _) => .ok true          -- a Param object is never None
      | .ok (.default v) => .ok v.truthy    -- unreachable: get never defaults
      | .error e => .error e
  | .typecheck name ty =>
      match cfg.get name .vnone with
      | .ok (.param p) => .ok (p.value.typeMatches ty)
      | .ok (.default _) => .error .attributeError
      | .error e => .error e
  | .postBuildTypecheck _ _ => .error .typeError
  | .variantsNonempty name =>
      match cfg.get name .vnone with
      | .ok (.param p) =>
          match p.variants with
          | none => .error .typeError       -- len(None)
          | some vs => .ok (decide (vs.length > 0))
      | .ok (.default _) => .error .attributeError
      | .error e => .error e
  | .constCond b => .ok b

/-- Model of `ValidationResult` (configuration.py, lines 43-55). -/
structure ValidationResult where
  passed : Bool
  source : String
  errorMessage : Option String
  deriving DecidableEq, Repr

/-- The child pre-pass of `Configuration.validate` (configuration.py, lines
410-414): for every `is_child` parameter, call
`child.value.config.validate(strict)` and stop at the first failure.  A
child value without a `config` attribute (e.g. a still-unresolved key or
`None`) raises `AttributeError`.  The recursive call is passed in as `v`. -/
def validateChildrenWith (v : Config → Except PyError ValidationResult) :
    List Param → Except PyError (Option ValidationResult)
  | [] => .ok none
  | p :: rest =>
      if p.is_child then
        match p.value with
        | .vcomp comp =>
            match v comp.config with
            | .error e => .error e
            | .ok r =>
                if r.passed then validateChildrenWith v rest else .ok (some r)
        | _ => .error .attributeError
      else validateChildrenWith v rest

/-- The condition loop of `Configuration.validate` (configuration.py, lines
416-419): evaluate the filtered conditions in insertion order and return the
name of the first one that fails (an exception inside a condition
propagates; a stored value that is not callable raises `TypeError`). -/
def firstFailingCondition (cfg : Config) :
    List Param → Except PyError (Option String)
  | [] => .ok none
  | p :: rest =>
      match p.value with
      | .vcond c =>
          match c.eval cfg with
          | .error e => .error e
          | .ok true => firstFailingCondition cfg rest
          | .ok false => .ok (some p.name)
      | _ => .error .typeError

/-- Model of `Configuration.validate` (configuration.py, lines 392-430).  When
`built` is truthy, the children are validated first.  The conditions then
evaluated are those whose tags contain `condition` and do **not** contain
the exact string `pre` (when built) / `post` (when not built) — note that
the tags actually attached by `add` are `pre-built` / `post-built`, which
are different strings.  The first failing condition yields a failed
`ValidationResult`; under `strict` it raises `ValidationFailureException`.
The explicit fuel bounds recursion into children. -/
def Config.validate : Nat → Config → Bool → Except PyError ValidationResult
  | 0, _, _ => .error .recursionError
  | fuel + 1, cfg, strict =>
      let childStep :=
        if cfg.builtFlag then
          validateChildrenWith (fun c => Config.validate fuel c strict)
            cfg.params
        else .ok none
      match childStep with
      | .error e => .error e
      | .ok (some childResult) => .ok childResult
      | .ok none =>
          let stage := if cfg.builtFlag then "pre" else "post"
          let conds := cfg.params.filter (fun p =>
            p.tags.contains "condition" && !(p.tags.contains stage))
          match firstFailingCondition cfg conds with
          | .error e => .error e
          | .ok (some condName) =>
              if strict then .error .validationFailure
              else .ok ⟨false, cfg.cls,
                some ("Condition " ++ condName ++ " failed!")⟩
          | .ok none => .ok ⟨true, cfg.cls, none⟩

/-- Model of `child.value is not None` combined with the `is_child` filter of the
`children` property: whether `post_build` resolves this parameter. -/
def Param.needsResolve (p : Param) : Bool :=
  p.is_child && (match p.value with | .vnone => false | _ => true)

/-- Model of `child.value = ...`: replace the stored value, keeping every other
field. -/
def Param.withValue : Param → Value → Param
  | .mk n _ th tg ir ic bth vr, v => .mk n v th tg ir ic bth vr

theorem Param.withValue_name (p : Param) (v : Value) :
    (p.withValue v).name = p.name := by
  cases p
  rfl

/-- The loop body of `Configuration.post_build` (configuration.py, lines
477-479) over the parameter list: each `is_child` parameter with a
non-`None` value is replaced by
`Registry.build_component_from_key(child.value)` (abstracted as the
`resolver` argument); the first resolution error aborts the loop, leaving
the already-resolved prefix in place (Python mutates the `Param` objects as
it goes). -/
def postBuildGo (resolver : Value → Except PyError Value) :
    List Param → Option PyError × List Param
  | [] => (none, [])
  | p :: rest =>
      if p.needsResolve then
        match resolver p.value with
        | .error e => (some e, p :: rest)
        | .ok comp =>
            ((postBuildGo resolver rest).1,
              p.withValue comp :: (postBuildGo resolver rest).2)
      else ((postBuildGo resolver rest).1, p :: (postBuildGo resolver rest).2)

/-- Model of `Configuration.post_build` (configuration.py, lines 466-481): a no-op
when `built` is already truthy; otherwise resolve each non-`None` child and
finally set `self.built = True` (through `__setattr__`, i.e. `add`).  The
pair returned is (raised exception if any, the configuration as left behind
by the call) — on an exception `built` has not been assigned. -/
def Config.post_build (cfg : Config)
    (resolver : Value → Except PyError Value) : Option PyError × Config :=
  if cfg.builtFlag then (none, cfg)
  else
    match postBuildGo resolver cfg.params with
    | (some e, ps) => (some e, Config.mk cfg.cls ps)
    | (none, ps) => (none, (Config.mk cfg.cls ps).setattr "built" (.vbool true))

/-- Model of `Configuration.fully_validate` (configuration.py, lines 432-464): when
not yet built, validate (the non-strict result of this first call is
discarded!), then run `post_build` under `try/except` (re-raised when
strict, converted to a failed result otherwise), then validate again in the
new state.  Returns the result together with the mutated configuration. -/
def Config.fully_validate (fuel : Nat) (cfg : Config) (strict : Bool)
    (resolver : Value → Except PyError Value) :
    Except PyError (ValidationResult × Config) :=
  if !cfg.builtFlag then
    match Config.validate fuel cfg strict with
    | .error e => .error e
    | .ok _ =>
        match cfg.post_build resolver with
        | (some e, cfg2) =>
            if strict then .error e
            else .ok (⟨false, cfg.cls, some e.str⟩, cfg2)
        | (none, cfg2) =>
            match Config.validate fuel cfg2 strict with
            | .error e => .error e
            | .ok r => .ok (r, cfg2)
  else
    match Config.validate fuel cfg strict with
    | .error e => .error e
    | .ok r => .ok (r, cfg)

/-- Updating the value of the parameter named `key` (the effect of
`copy.get(key).value = deepcopy(value)` in `get_delta_copy`; deep copying
is the identity on immutable Lean values). -/
def Config.setParamValue (cfg : Config) (key : String) (v : Value) : Config :=
  .mk cfg.cls (cfg.params.map (fun p =>
    if p.name == key then
      .mk p.name v p.type_hint p.tags p.is_required p.is_child
        p.build_type_hint p.variants
    else p))

/-- Whether `key in self.params` holds: a *direct*, non-condition parameter
name. -/
def Config.isDirectParam (cfg : Config) (key : String) : Bool :=
  cfg.paramsProperty.any (fun p => p.name == key)

/-- The direct-override pass of `get_delta_copy`: apply every keyword
argument whose key is a direct parameter name to the copy. -/
def Config.applyDirect (cfg : Config) (kwargs : List (String × Value)) :
    Config :=
  (kwargs.filter (fun kv => cfg.isDirectParam kv.1)).foldl
    (fun c kv => c.setParamValue kv.1 kv.2) cfg

/-- The child loop of `get_delta_copy` (configuration.py, lines 531-533):
for each parameter of the copy holding a built `Component`, replace the
child component's configuration by its recursive delta copy (`g` is the
recursive call, applied to the *entire remaining* `kwargs`). -/
def deltaCopyChildrenWith (g : Config → Except PyError Config) :
    List Param → Except PyError (List Param)
  | [] => .ok []
  | p :: rest =>
      match p.is_child, p.value with
      | true, .vcomp comp =>
          match g comp.config with
          | .error e => .error e
          | .ok newCfg =>
              match deltaCopyChildrenWith g rest with
              | .error e => .error e
              | .ok rest2 =>
                  .ok (Param.mk p.name
                    (.vcomp (Component.mk comp.cls newCfg comp.args))
                    p.type_hint p.tags p.is_required p.is_child
                    p.build_type_hint p.variants :: rest2)
      | _, _ =>
          match deltaCopyChildrenWith g rest with
          | .error e => .error e
          | .ok rest2 => .ok (p :: rest2)

/-- Model of `Configuration.get_delta_copy` (configuration.py, lines 506-538): deep
copy, apply the overrides whose keys are direct parameter names, and pop
them from `kwargs`.  If nothing remains, return the copy.  Otherwise, for
every child whose value is a built `Component`, recursively delta-copy the
child's configuration with the *entire remaining* `kwargs` (no prefix
stripping happens anywhere).  The remaining `kwargs` of the current frame
are never emptied by that loop, so the final
`if len(kwargs): raise RuntimeError` always fires when any override key was
not a direct parameter name (unless a recursive call raised first). -/
def Config.get_delta_copy : Nat → Config → List (String × Value) →
    Except PyError Config
  | fuel, cfg, kwargs =>
      let copy := cfg.applyDirect kwargs
      let rest := kwargs.filter (fun kv => !cfg.isDirectParam kv.1)
      if rest.isEmpty then .ok copy
      else
        match fuel with
        | 0 => .error .recursionError
        | fuel + 1 =>
            match deltaCopyChildrenWith
                (fun c => Config.get_delta_copy fuel c rest) copy.params with
            | .error e => .error e
            | .ok _ => .error .runtimeError

/-- Python's `<=` on strings: lexicographic comparison of code points. -/
def pyCharListLe : List Char → List Char → Bool
  | [], _ => true
  | _ :: _, [] => false
  | a :: as, b :: bs =>
      if a.toNat < b.toNat then true
      else if b.toNat < a.toNat then false
      else pyCharListLe as bs

def pyStringLe (a b : String) : Bool :=
  pyCharListLe a.data b.data

/-- Insertion into a string list sorted in Python's (code-point
lexicographic) order. -/
def insertSortedString (s : String) : List String → List String
  | [] => [s]
  | x :: xs => if pyStringLe s x then s :: x :: xs else x :: insertSortedString s xs

/-- Python's `sorted` on dictionary keys (stable ascending string order). -/
def sortStrings (l : List String) : List String :=
  l.foldr insertSortedString []

/-- Model of `itertools.product` on a list of lists: the leftmost factor varies
slowest. -/
def productLists : List (List Value) → List (List Value)
  | [] => [[]]
  | l :: rest =>
      (l.map (fun x => (productLists rest).map (fun t => x :: t))).flatten

/-- Model of `get_dict_values_combinations` (utility/python_utility.py, lines 6-30):
sort the parameter names, take the cross product of their value lists in
that order, zip each tuple back with the names, and keep only non-empty
combinations. -/
def get_dict_values_combinations (params_dict : List (String × List Value)) :
    List (List (String × Value)) :=
  let keys := sortStrings (params_dict.map (fun kv => kv.1))
  let combTuples := productLists (keys.map (fun k =>
    ((params_dict.find? (fun kv => kv.1 == k)).map (fun kv => kv.2)).getD []))
  combTuples.filterMap (fun tuple =>
    let instanceParams := keys.zip tuple
    if instanceParams.length ≠ 0 then some instanceParams else none)

/-- The method names defined in the body of `class Configuration`
(configuration.py).  `items` is **not** among them, and `Configuration`
has no base class besides `object`, so the attribute lookup `self.items`
fails. -/
def configurationMethodNames : List String :=
  ["__init__", "__setattr__", "__getattribute__", "__str__", "conditions",
   "params", "values", "children", "get", "add", "add_condition", "validate",
   "fully_validate", "post_build", "get_delta_class_copy", "get_delta_copy",
   "get_default", "to_value_dict", "get_variants_combinations", "show",
   "search_param_by_tag", "search_param", "search_condition_by_tag",
   "search_condition"]

/-- The attribute lookup + call `self.items()` performed by
`get_variants_combinations`: an instance attribute of that name would be a
`Param`, unwrapped to its (non-callable) value, raising `TypeError`;
otherwise the class provides no `items` method and the lookup raises
`AttributeError`. -/
def Config.itemsCall (cfg : Config) : Except PyError (List Param) :=
  match cfg.lookupParam "items" with
  | some _ => .error .typeError
  | none =>
      if "items" ∈ configurationMethodNames then .ok cfg.params
      else .error .attributeError

/-- Model of `Configuration.get_variants_combinations` (configuration.py, lines
562-590): iterate `self.items()` collecting parameters with a non-empty
`variants` attribute, build the cross product with
`get_dict_values_combinations`, and (when `validate` is true) keep only
the combinations for which `self.get_delta_copy(params=comb)` — note the
single keyword argument named `params` — passes a non-strict
`fully_validate`. -/
def Config.get_variants_combinations (fuel : Nat) (cfg : Config)
    (validate : Bool) (resolver : Value → Except PyError Value) :
    Except PyError (List (List (String × Value))) :=
  match cfg.itemsCall with
  | .error e => .error e
  | .ok ps =>
      let parameters := ps.filterMap (fun p =>
        match p.variants with
        | some vs => if vs.length ≠ 0 then some (p.name, vs) else none
        | none => none)
      let combinations := get_dict_values_combinations parameters
      if validate then
        combinations.foldrM (fun comb acc =>
          match Config.get_delta_copy fuel cfg [("params", .vdict comb)] with
          | .error e => .error e
          | .ok copy =>
              match Config.fully_validate fuel copy false resolver with
              | .error e => .error e
              | .ok (r, _) => .ok (if r.passed then comb :: acc else acc)) []
      else .ok combinations

/-- The dependency graph (`networkx.DiGraph`): node list and directed edge
list, in insertion order, without duplicates in well-formed states. -/
structure Graph where
  nodes : List RegistrationKey
  edges : List (RegistrationKey × RegistrationKey)
  deriving DecidableEq

def Graph.inDegree (g : Graph) (v : RegistrationKey) : Nat :=
  (g.edges.filter (fun e => e.2 == v)).length

def Graph.outDegree (g : Graph) (v : RegistrationKey) : Nat :=
  (g.edges.filter (fun e => e.1 == v)).length

/-- Model of `networkx.isolates`: nodes with no incident edges at all (in-degree and
out-degree both zero). -/
def Graph.isolates (g : Graph) : List RegistrationKey :=
  g.nodes.filter (fun v => g.inDegree v == 0 && g.outDegree v == 0)

/-- Remove a set of nodes and every edge incident to them. -/
def Graph.removeNodes (g : Graph) (vs : List RegistrationKey) : Graph :=
  { nodes := g.nodes.filter (fun v => !vs.contains v)
    edges := g.edges.filter (fun e => !vs.contains e.1 && !vs.contains e.2) }

/-- Kahn-style source elimination deciding acyclicity: repeatedly delete
all in-degree-zero nodes; the graph is acyclic iff everything is
eventually deleted. -/
def Graph.isDAGAux : Nat → Graph → Bool
  | 0, g => g.nodes.isEmpty
  | fuel + 1, g =>
      if g.nodes.isEmpty then true
      else
        let sources := g.nodes.filter (fun v => g.inDegree v == 0)
        if sources.isEmpty then false
        else Graph.isDAGAux fuel (g.removeNodes sources)

/-- Model of `networkx.algorithms.dag.is_directed_acyclic_graph`. -/
def Graph.isDAG (g : Graph) : Bool :=
  Graph.isDAGAux g.nodes.length g

/-- Model of `Registry.ROOT_KEY = RegistrationKey(name='root', namespace='root')`
(registry.py, line 317); the constructor turns the omitted tags into the
empty set. -/
def ROOT_KEY : RegistrationKey := ⟨"root", "root", some ∅⟩

/-- Model of `Registry.check_registration_graph` (registry.py, lines 667-678): raise
`DisconnectedGraphException` when `nx.isolates` is non-empty and the graph
has more than one node; then raise `NotADAGException` when the graph is not
acyclic; otherwise return `True`.  No pruning of root edges and no
in-degree-only check is performed. -/
def check_registration_graph (g : Graph) : Except PyError Bool :=
  if g.isolates.length > 0 ∧ g.nodes.length > 1 then
    .error .disconnectedGraph
  else if !g.isDAG then .error .notADAG
  else .ok true

/-- Model of `ConfigurationInfo` (registry.py, lines 255-271): the stored recipe —
configuration class name, constructor and constructor keyword arguments. -/
structure ConfigurationInfo where
  class_type : String
  constructor : List (String × Value) → Config
  kwargs : List (String × Value)

/-- The process-wide mutable state of `class Registry` (registry.py, lines
308-320).  Registration closures in `REGISTRATION_REGISTRY` are opaque to
the claims below and carried as tokens. -/
structure RegistryState where
  REGISTRY : List (RegistrationKey × ConfigurationInfo)
  BINDINGS : List (RegistrationKey × String)
  BUILT_REGISTRY : List (RegistrationKey × Component)
  REGISTRATION_METHODS : List String
  MODULE_SCOPE : Option String
  REGISTER_SCOPE : Option String
  REGISTERED_NAMESPACES : List String
  DEPENDENCY_DAG : Graph
  REGISTRATION_REGISTRY : List (RegistrationKey × String)

/-- The initial class-level state: empty maps and a dependency graph that
contains only the synthetic root node. -/
def initialRegistryState : RegistryState :=
  { REGISTRY := []
    BINDINGS := []
    BUILT_REGISTRY := []
    REGISTRATION_METHODS := []
    MODULE_SCOPE := none
    REGISTER_SCOPE := none
    REGISTERED_NAMESPACES := []
    DEPENDENCY_DAG := ⟨[ROOT_KEY], []⟩
    REGISTRATION_REGISTRY := [] }

/-- Model of `Registry.clear` (registry.py, lines 396-410): clear every map and
scope, and call `DEPENDENCY_DAG.clear()` — networkx's `clear` removes
*every* node and edge, the root node included; nothing re-adds
`ROOT_KEY`. -/
def Registry.clear (_s : RegistryState) : RegistryState :=
  { REGISTRY := []
    BINDINGS := []
    BUILT_REGISTRY := []
    REGISTRATION_METHODS := []
    MODULE_SCOPE := none
    REGISTER_SCOPE := none
    REGISTERED_NAMESPACES := []
    DEPENDENCY_DAG := ⟨[], []⟩
    REGISTRATION_REGISTRY := [] }

/-- Association-list lookup keyed by `RegistrationKey` (Python dict
lookup). -/
def lookupKey {α : Type} (l : List (RegistrationKey × α))
    (k : RegistrationKey) : Option α :=
  (l.find? (fun kv => kv.1 == k)).map (fun kv => kv.2)

/-- Python dict assignment `d[k] = v`: overwrite in place or append. -/
def assocSet {α : Type} (l : List (RegistrationKey × α))
    (k : RegistrationKey) (v : α) : List (RegistrationKey × α) :=
  if (lookupKey l k).isSome then
    l.map (fun kv => if kv.1 == k then (k, v) else kv)
  else l ++ [(k, v)]

/-- Model of `Registry.is_in_registry` (registry.py, lines 381-394) restricted to its
pure part: membership in `REGISTRY`.  The lazy namespace fallback imports
external modules from the filesystem (side effect outside this embedding);
it is skipped entirely when the key is already present, and for namespaces
outside `_DEFAULT_PACKAGES` it leaves the registry unchanged. -/
def Registry.is_in_registry (s : RegistryState) (k : RegistrationKey) : Bool :=
  (lookupKey s.REGISTRY k).isSome

/-- Model of `Registry.build_component_from_key` (registry.py, lines 416-462):
1. (parse — identity on already-parsed keys);
2. `NotRegisteredException` when the key is not in `REGISTRY`;
3. build a fresh configuration with the stored constructor and kwargs, and
   raise `InvalidConfigurationTypeException` when its runtime class differs
   from the registered one;
4. `NotBoundException` when no component class is bound;
5. instantiate the bound component class as
   `registered_component(config=built_config, **build_args)` — the
   configuration is passed exactly as the constructor returned it: no
   `post_build()` and no `validate()` call occurs anywhere in this method;
6. when `register_built_component` is true, store the component in
   `BUILT_REGISTRY` (overwriting).
Returns the component and the (possibly updated) registry state. -/
def Registry.build_component_from_key (s : RegistryState)
    (registration_key : RegistrationKey) (register_built_component : Bool)
    (build_args : List (String × Value)) :
    Except PyError (Component × RegistryState) :=
  if !Registry.is_in_registry s registration_key then .error .notRegistered
  else
    match lookupKey s.REGISTRY registration_key with
    | none => .error .notRegistered      -- unreachable given the guard
    | some info =>
        let built_config := info.constructor info.kwargs
        if built_config.cls ≠ info.class_type then
          .error .invalidConfigurationType
        else
          match lookupKey s.BINDINGS registration_key with
          | none => .error .notBound
          | some registered_component =>
              let built_component :=
                Component.mk registered_component built_config build_args
              let newBuilt :=
                assocSet s.BUILT_REGISTRY registration_key built_component
              let s2 :=
                if register_built_component then
                  { s with BUILT_REGISTRY := newBuilt }
                else s
              .ok (built_component, s2)

/-! ## Helper lemmas about parameter lookup -/

/-- Mapping a name-preserving update over the parameters named `nm` commutes
with looking that name up. -/
theorem find?_map_update (nm : String) (f : Param → Param)
    (hf : ∀ p, (f p).name = p.name) (ps : List Param) :
    (ps.map (fun p => if p.name == nm then f p else p)).find?
        (fun q => q.name == nm)
      = (ps.find? (fun q => q.name == nm)).map f := by
  induction ps with
  | nil => rfl
  | cons p rest ih =>
      rw [List.map_cons]
      by_cases h : p.name = nm
      · have hg : (if (p.name == nm) = true then f p else p) = f p := by
          rw [if_pos (by exact beq_iff_eq.mpr h)]
        rw [hg,
          @List.find?_cons_of_pos _ (fun q => q.name == nm) (f p) _
            (by show ((f p).name == nm) = true; rw [hf]; exact beq_iff_eq.mpr h),
          @List.find?_cons_of_pos _ (fun q => q.name == nm) p rest
            (beq_iff_eq.mpr h)]
        rfl
      · have hg : (if (p.name == nm) = true then f p else p) = p := by
          rw [if_neg (by simp [h])]
        rw [hg,
          @List.find?_cons_of_neg _ (fun q => q.name == nm) p _ (by simp [h]),
          @List.find?_cons_of_neg _ (fun q => q.name == nm) p rest
            (by simp [h]),
          ih]

/-- Looking up a name different from the updated one is unaffected by the
update. -/
theorem find?_map_update_other (nm q : String) (hq : q ≠ nm)
    (f : Param → Param) (hf : ∀ p, (f p).name = p.name) (ps : List Param) :
    (ps.map (fun p => if p.name == nm then f p else p)).find?
        (fun x => x.name == q)
      = ps.find? (fun x => x.name == q) := by
  induction ps with
  | nil => rfl
  | cons p rest ih =>
      rw [List.map_cons]
      by_cases h : p.name = nm
      · have hfq : ((f p).name == q) = false := by
          rw [hf p]
          exact beq_eq_false_iff_ne.mpr (by rw [h]; exact fun hc => hq hc.symm)
        have hpq : (p.name == q) = false := by
          exact beq_eq_false_iff_ne.mpr (by rw [h]; exact fun hc => hq hc.symm)
        have hg : (if (p.name == nm) = true then f p else p) = f p := by
          rw [if_pos (by exact beq_iff_eq.mpr h)]
        rw [hg,
          @List.find?_cons_of_neg _ (fun x => x.name == q) (f p) _
            (by simp [hfq]),
          @List.find?_cons_of_neg _ (fun x => x.name == q) p rest
            (by simp [hpq]),
          ih]
      · have hg : (if (p.name == nm) = true then f p else p) = p := by
          rw [if_neg (by simp [h])]
        rw [hg]
        by_cases h2 : p.name = q
        · rw [@List.find?_cons_of_pos _ (fun x => x.name == q) p _
            (beq_iff_eq.mpr h2),
            @List.find?_cons_of_pos _ (fun x => x.name == q) p rest
              (beq_iff_eq.mpr h2)]
        · rw [@List.find?_cons_of_neg _ (fun x => x.name == q) p _
            (by simp [h2]),
            @List.find?_cons_of_neg _ (fun x => x.name == q) p rest
              (by simp [h2]),
            ih]

/-! ## C10: `Configuration.get` on a missing name -/

/-- C10: for every configuration and every name not stored on it,
`get(name, default)` raises `KeyError` rather than returning the supplied
default: the dictionary subscript raises `KeyError`, the handler only
catches `AttributeError`, so the default-returning branch is
unreachable for every input. -/
theorem get_missing_raises_keyError (cfg : Config) (name : String)
    (d : Value) :
    (cfg.lookupParam name = none → cfg.get name d = .error .keyError) ∧
    (∀ v, cfg.get name d ≠ .ok (.default v)) := by
  constructor
  · intro h
    simp [Config.get, Config.dictGetitem, h]
  · intro v
    unfold Config.get Config.dictGetitem
    cases h : cfg.lookupParam name with
    | some p => simp
    | none => simp

/-- Witness for C10: the freshly initialised configuration has no parameter
named `zzz`, and `get` raises `KeyError` there. -/
theorem get_missing_raises_keyError_witness :
    (Config.init "Configuration" []).get "zzz" .vnone = .error .keyError :=
  (get_missing_raises_keyError (Config.init "Configuration" []) "zzz"
    .vnone).1 rfl

/-! ## C4: the `is_required` condition cannot fail on a `None` value -/

/-- A configuration with a parameter `x` added with `value=None` and
`is_required=True` (and no type hint): the exact shape of the claim. -/
def requiredNoneConfig : Config :=
  (Config.init "Configuration" []).add "x" .vnone none none true false
    none none

/-- C4 (code bug): although `add` synthesises the `x_is_required`
condition, that condition evaluates `config.get(name) is not None`, and
`get` returns the `Param` wrapper object — which exists — so validation
*passes* in both non-strict and strict mode on a required parameter whose
value is `None`, contradicting the claimed invariant. -/
theorem required_none_validation_passes :
    Config.validate 3 requiredNoneConfig false =
      .ok ⟨true, "Configuration", none⟩ ∧
    Config.validate 3 requiredNoneConfig true =
      .ok ⟨true, "Configuration", none⟩ ∧
    (requiredNoneConfig.lookupParam "x_is_required").isSome = true ∧
    ((requiredNoneConfig.lookupParam "x").map Param.value) = some .vnone :=
  ⟨rfl, rfl, rfl, rfl⟩

/-! ## C5: the stage filter in `validate` matches no actual tag -/

/-- A not-yet-built configuration carrying a failing condition tagged
`post-built` (the tag `add` uses for post-stage conditions). -/
def postTaggedConfig : Config :=
  (Config.init "Configuration" []).add_condition (.constCond false)
    "post_stage_check" (some ["post-built"])

/-- A configuration carrying a failing condition tagged `pre-built`, with
`built` already set to `True`. -/
def preTaggedBuiltConfig : Config :=
  ((Config.init "Configuration" []).add_condition (.constCond false)
    "pre_stage_check" (some ["pre-built"])).setattr "built" (.vbool true)

/-- C5 (code bug): `validate` filters conditions by the exact tag strings
`pre` / `post`, but `add` tags them `pre-built` / `post-built`, so the
filter excludes nothing: a post-stage condition is evaluated (and fails)
while `built` is false, and a pre-stage condition is evaluated (and fails)
while `built` is true — both stages run in every call, contradicting the
claimed stage separation. -/
theorem validate_stage_filter_ineffective :
    Config.validate 3 postTaggedConfig false =
      .ok ⟨false, "Configuration", some "Condition post_stage_check failed!"⟩ ∧
    Config.validate 3 preTaggedBuiltConfig false =
      .ok ⟨false, "Configuration", some "Condition pre_stage_check failed!"⟩ ∧
    postTaggedConfig.builtFlag = false ∧
    preTaggedBuiltConfig.builtFlag = true :=
  ⟨rfl, rfl, rfl, rfl⟩

/-! ## C2: `get_variants_combinations` crashes on `self.items()` -/

/-- The claim's own example: a configuration with two boolean parameters,
each declaring the variants `[False, True]`. -/
def twoBoolVariantsConfig : Config :=
  ((Config.init "Configuration" []).add "param1" (.vbool false) (some .tBool)
      none false false none (some [.vbool false, .vbool true])).add
    "param2" (.vbool false) (some .tBool) none false false none
    (some [.vbool false, .vbool true])

/-- C2 (code bug): on the claim's own two-boolean-parameters example,
`get_variants_combinations` raises `AttributeError` immediately — it
iterates `self.items()`, a method `Configuration` does not define — in both
the validating and the non-validating mode; the cross product itself is
computed correctly by the `get_dict_values_combinations` helper (4
combinations, parameter names sorted, `itertools.product` order).  Even
with an `items` method present the validating branch would raise
`RuntimeError`, because it calls `get_delta_copy(params=comb)` and
`params` is not a parameter name. -/
theorem get_variants_combinations_attribute_error :
    Config.get_variants_combinations 5 twoBoolVariantsConfig true
        (fun _ => .error .notRegistered) = .error .attributeError ∧
    Config.get_variants_combinations 5 twoBoolVariantsConfig false
        (fun _ => .error .notRegistered) = .error .attributeError ∧
    get_dict_values_combinations
        [("param1", [.vbool false, .vbool true]),
         ("param2", [.vbool false, .vbool true])] =
      [[("param1", .vbool false), ("param2", .vbool false)],
       [("param1", .vbool false), ("param2", .vbool true)],
       [("param1", .vbool true), ("param2", .vbool false)],
       [("param1", .vbool true), ("param2", .vbool true)]] ∧
    Config.get_delta_copy 5 twoBoolVariantsConfig
        [("params", .vdict [("param1", .vbool true)])] =
      .error .runtimeError :=
  ⟨rfl, rfl, rfl, rfl⟩

/-! ## C6: `post_build` is one-shot and leaves `built` unset on failure -/

theorem needsResolve_false_of_not_child (p : Param) (h : p.is_child = false) :
    p.needsResolve = false := by
  unfold Param.needsResolve
  rw [h]
  rfl

/-- The resolution loop of `post_build` never touches a parameter named
`built` provided the first such parameter is not a child, so the lookup of
`built` is unchanged by the loop (regardless of whether it aborted). -/
theorem postBuildGo_preserves_built (resolver : Value → Except PyError Value)
    (ps : List Param)
    (h : ∀ p, ps.find? (fun q => q.name == "built") = some p →
      p.is_child = false) :
    (postBuildGo resolver ps).2.find? (fun q => q.name == "built")
      = ps.find? (fun q => q.name == "built") := by
  induction ps with
  | nil => rfl
  | cons p rest ih =>
      by_cases hn : (p.name == "built") = true
      · have hchild : p.is_child = false := by
          apply h p
          exact @List.find?_cons_of_pos _ (fun q => q.name == "built") p rest
            hn
        have hrt : p.needsResolve = false :=
          needsResolve_false_of_not_child p hchild
        simp only [postBuildGo, hrt, Bool.false_eq_true, if_false]
        rw [@List.find?_cons_of_pos _ (fun q => q.name == "built") p
            (postBuildGo resolver rest).2 hn,
          @List.find?_cons_of_pos _ (fun q => q.name == "built") p rest hn]
      · rw [Bool.not_eq_true] at hn
        have hnb : ((fun q => q.name == "built") p) = false := hn
        have hrest : ∀ q, rest.find? (fun x => x.name == "built") = some q →
            q.is_child = false := by
          intro q hq
          apply h q
          rw [@List.find?_cons_of_neg _ (fun x => x.name == "built") p rest
            (by simp [hnb])]
          exact hq
        have ihr := ih hrest
        by_cases hrt : p.needsResolve = true
        · simp only [postBuildGo, hrt, if_true]
          cases hres : resolver p.value with
          | error e => rfl
          | ok comp =>
              rw [@List.find?_cons_of_neg _ (fun q => q.name == "built")
                  (p.withValue comp) (postBuildGo resolver rest).2
                  (by show ¬((p.withValue comp).name == "built") = true
                      rw [Param.withValue_name]
                      simp [hn]),
                @List.find?_cons_of_neg _ (fun q => q.name == "built") p rest
                  (by simp [hnb]),
                ihr]
        · rw [Bool.not_eq_true] at hrt
          simp only [postBuildGo, hrt, Bool.false_eq_true, if_false]
          rw [@List.find?_cons_of_neg _ (fun q => q.name == "built") p
              (postBuildGo resolver rest).2 (by simp [hnb]),
            @List.find?_cons_of_neg _ (fun q => q.name == "built") p rest
              (by simp [hnb]),
            ihr]

/-- Assigning `self.built = True` (via `__setattr__`/`add`) makes the
`built` flag read back as `True`, whatever the configuration was. -/
theorem builtFlag_setattr_built_true (cfg : Config) :
    (cfg.setattr "built" (.vbool true)).builtFlag = true := by
  cases cfg with
  | mk cls ps =>
      show (Config.builtFlag
        (Config.addParamOnly (Config.mk cls ps) "built" (.vbool true)
          none none false false none none)) = true
      unfold Config.addParamOnly
      cases h : (Config.mk cls ps).lookupParam "built" with
      | some q =>
          show Config.builtFlag (Config.mk cls (ps.map (fun p =>
            if p.name == "built" then
              Param.mk p.name (.vbool true) p.type_hint p.tags
                p.is_required p.is_child p.build_type_hint p.variants
            else p))) = true
          unfold Config.builtFlag Config.lookupParam
          simp only [Config.params]
          rw [find?_map_update "built"
            (fun p => Param.mk p.name (.vbool true) p.type_hint p.tags
              p.is_required p.is_child p.build_type_hint p.variants)
            (fun p => rfl) ps]
          have hq : ps.find? (fun x => x.name == "built") = some q := h
          rw [hq]
          rfl
      | none =>
          show Config.builtFlag (Config.mk cls (ps ++
            [Param.make "built" (.vbool true) none none false false
              none none])) = true
          unfold Config.builtFlag Config.lookupParam
          simp only [Config.params]
          rw [List.find?_append]
          have hq : ps.find? (fun x => x.name == "built") = none := h
          rw [hq]
          rfl

/-- C6: the `built` flag transitions false→true exactly once, via a
successful `post_build()`: when `built` is already true the call returns
immediately and changes nothing; when a child resolution fails the
exception propagates and `built` is still false; when the call succeeds
`built` is true.  The hypothesis — satisfied by every configuration built
through `Configuration.__init__`/`add`, which never mark `built` as a
child — rules out a hand-crafted parameter list whose `built` entry is
itself a child parameter. -/
theorem post_build_one_shot (cfg : Config)
    (resolver : Value → Except PyError Value)
    (hb : ∀ p, cfg.lookupParam "built" = some p → p.is_child = false) :
    (cfg.builtFlag = true → cfg.post_build resolver = (none, cfg)) ∧
    (cfg.builtFlag = false →
      (∀ e cfg2, cfg.post_build resolver = (some e, cfg2) →
        cfg2.builtFlag = false) ∧
      (∀ cfg2, cfg.post_build resolver = (none, cfg2) →
        cfg2.builtFlag = true)) := by
  constructor
  · intro hbuilt
    unfold Config.post_build
    rw [hbuilt]
    rfl
  · intro hnot
    have hfind : ∀ p,
        cfg.params.find? (fun q => q.name == "built") = some p →
          p.is_child = false := hb
    constructor
    · intro e cfg2 heq
      unfold Config.post_build at heq
      rw [hnot] at heq
      simp only [Bool.false_eq_true, if_false] at heq
      cases hgo : postBuildGo resolver cfg.params with
      | mk res ps =>
          rw [hgo] at heq
          cases res with
          | none => simp at heq
          | some e2 =>
              simp only [] at heq
              have hcfg : (Config.mk cfg.cls ps) = cfg2 :=
                congrArg Prod.snd heq
              have hps : cfg2.params = ps := by
                rw [← hcfg]
                rfl
              show (match cfg2.lookupParam "built" with
                | some p => p.value.truthy
                | none => false) = false
              unfold Config.lookupParam
              rw [hps]
              have hpres := postBuildGo_preserves_built resolver cfg.params
                hfind
              rw [hgo] at hpres
              simp only [] at hpres
              rw [hpres]
              have : (match cfg.params.find? (fun q => q.name == "built") with
                | some p => p.value.truthy
                | none => false) = false := hnot
              exact this
    · intro cfg2 heq
      unfold Config.post_build at heq
      rw [hnot] at heq
      simp only [Bool.false_eq_true, if_false] at heq
      cases hgo : postBuildGo resolver cfg.params with
      | mk res ps =>
          rw [hgo] at heq
          cases res with
          | some e2 => simp at heq
          | none =>
              simp only [] at heq
              have hcfg : ((Config.mk cfg.cls ps).setattr "built"
                  (.vbool true)) = cfg2 := congrArg Prod.snd heq
              rw [← hcfg]
              exact builtFlag_setattr_built_true (Config.mk cfg.cls ps)

/-- A configuration with one child parameter holding a registration key
(the usual `post_build` input). -/
def childKeyConfig : Config :=
  (Config.init "Configuration" []).add "child"
    (.vkey ⟨"component", "testing", some ∅⟩) none none false true none none

/-- Witness for C6 at a concrete configuration: a failing resolver leaves
`built` false, a succeeding one sets it. -/
theorem post_build_one_shot_witness :
    ((childKeyConfig.post_build (fun _ => .error .notRegistered)).2.builtFlag
      = false) ∧
    ((childKeyConfig.post_build (fun _ =>
        .ok (.vcomp (Component.mk "Component" (Config.init "Configuration" [])
          [])))).2.builtFlag = true) := by
  constructor
  · exact ((post_build_one_shot childKeyConfig
      (fun _ => .error .notRegistered)
      (by intro p hp
          injection hp with h
          rw [← h]
          rfl)).2 rfl).1 .notRegistered _ rfl
  · exact ((post_build_one_shot childKeyConfig
      (fun _ => .ok (.vcomp (Component.mk "Component"
        (Config.init "Configuration" []) [])))
      (by intro p hp
          injection hp with h
          rw [← h]
          rfl)).2 rfl).2 _ rfl

/-! ## C3: `get_delta_copy` — direct overrides work, everything else raises -/

/-- The parameter-field update applied by `copy.get(key).value = v`. -/
def Param.setValueFn (v : Value) (p : Param) : Param :=
  Param.mk p.name v p.type_hint p.tags p.is_required p.is_child
    p.build_type_hint p.variants

theorem lookupParam_setParamValue_same (cfg : Config) (nm : String)
    (v : Value) :
    (cfg.setParamValue nm v).lookupParam nm
      = (cfg.lookupParam nm).map (Param.setValueFn v) := by
  unfold Config.setParamValue Config.lookupParam
  simp only [Config.params]
  exact find?_map_update nm (Param.setValueFn v) (fun p => rfl) cfg.params

theorem lookupParam_setParamValue_other (cfg : Config) (nm q : String)
    (v : Value) (h : q ≠ nm) :
    (cfg.setParamValue nm v).lookupParam q = cfg.lookupParam q := by
  unfold Config.setParamValue Config.lookupParam
  simp only [Config.params]
  exact find?_map_update_other nm q h (Param.setValueFn v) (fun p => rfl)
    cfg.params

/-- Characterisation of the direct-override fold of `get_delta_copy`: with
duplicate-free keys, the parameter named by an override receives the new
value, and every other lookup is unchanged. -/
theorem foldl_setParamValue_lookup (l : List (String × Value)) (cfg : Config)
    (hnodup : (l.map Prod.fst).Nodup) (nm : String) :
    (l.foldl (fun c kv => c.setParamValue kv.1 kv.2) cfg).lookupParam nm =
      match l.find? (fun kv => kv.1 == nm) with
      | some kv => (cfg.lookupParam nm).map (Param.setValueFn kv.2)
      | none => cfg.lookupParam nm := by
  induction l generalizing cfg with
  | nil => rfl
  | cons kv rest ih =>
      rw [List.map_cons, List.nodup_cons] at hnodup
      obtain ⟨hnotin, hrest⟩ := hnodup
      rw [List.foldl_cons]
      by_cases hk : kv.1 = nm
      · have hfr : rest.find? (fun x => x.1 == nm) = none := by
          rw [List.find?_eq_none]
          intro x hx hpx
          apply hnotin
          rw [hk]
          have : x.1 = nm := by
            have := of_decide_eq_true (by exact hpx)
            exact this
          rw [← this]
          exact List.mem_map_of_mem Prod.fst hx
        have hfind : ((kv :: rest).find? (fun x => x.1 == nm)) = some kv :=
          @List.find?_cons_of_pos _ (fun x => x.1 == nm) kv rest
            (beq_iff_eq.mpr hk)
        rw [ih (cfg.setParamValue kv.1 kv.2) hrest, hfind, hfr]
        rw [hk]
        exact lookupParam_setParamValue_same cfg nm kv.2
      · have hfind : ((kv :: rest).find? (fun x => x.1 == nm))
            = rest.find? (fun x => x.1 == nm) :=
          @List.find?_cons_of_neg _ (fun x => x.1 == nm) kv rest
            (by simp [hk])
        rw [ih (cfg.setParamValue kv.1 kv.2) hrest, hfind,
          lookupParam_setParamValue_other cfg kv.1 nm kv.2
            (fun hc => hk hc.symm)]

/-- With duplicate-free keys, a pair in the list is exactly what `find?` on
its key returns. -/
theorem find?_of_mem_nodup (l : List (String × Value)) (nm : String)
    (v : Value) (hnodup : (l.map Prod.fst).Nodup) (hmem : (nm, v) ∈ l) :
    l.find? (fun kv => kv.1 == nm) = some (nm, v) := by
  induction l with
  | nil => cases hmem
  | cons kv rest ih =>
      rw [List.map_cons, List.nodup_cons] at hnodup
      obtain ⟨hnotin, hrest⟩ := hnodup
      rcases List.mem_cons.mp hmem with heq | hmem2
      · rw [← heq]
        exact @List.find?_cons_of_pos _ (fun x => x.1 == nm) (nm, v) rest
          (beq_iff_eq.mpr rfl)
      · have hk : kv.1 ≠ nm := by
          intro hc
          apply hnotin
          rw [hc]
          exact List.mem_map_of_mem Prod.fst hmem2
        rw [@List.find?_cons_of_neg _ (fun x => x.1 == nm) kv rest
          (by simp [hk])]
        exact ih hrest hmem2

/-- A direct parameter name is present in the parameter dictionary. -/
theorem lookupParam_isSome_of_isDirect (cfg : Config) (nm : String)
    (h : cfg.isDirectParam nm = true) :
    (cfg.lookupParam nm).isSome = true := by
  unfold Config.isDirectParam Config.paramsProperty at h
  rw [List.any_eq_true] at h
  obtain ⟨p, hp, hname⟩ := h
  have hmem : p ∈ cfg.params := (List.mem_filter.mp hp).1
  unfold Config.lookupParam
  rw [List.find?_isSome]
  exact ⟨p, hmem, hname⟩

/-- C3 (amended): `get_delta_copy` succeeds exactly on the overrides whose
keys are all direct parameter names — those are applied to the returned
copy (the original configuration is a value here and is unchanged by
construction) — and raises for any other override: the dotted-prefix keys
are never stripped, so a `childname.rest` override is passed verbatim into
every built-`Component` child, never matches, and the call ends in an
exception (`RuntimeError`, or the error of a deeper frame). -/
theorem get_delta_copy_direct_or_error (fuel : Nat) (cfg : Config)
    (kwargs : List (String × Value)) :
    ((∀ kv ∈ kwargs, cfg.isDirectParam kv.1 = true) →
      Config.get_delta_copy fuel cfg kwargs = .ok (cfg.applyDirect kwargs) ∧
      ((kwargs.map Prod.fst).Nodup →
        (∀ nm v, (nm, v) ∈ kwargs →
          ((cfg.applyDirect kwargs).lookupParam nm).map Param.value
            = some v) ∧
        (∀ nm, (∀ v, (nm, v) ∉ kwargs) →
          (cfg.applyDirect kwargs).lookupParam nm = cfg.lookupParam nm))) ∧
    ((∃ kv ∈ kwargs, cfg.isDirectParam kv.1 = false) →
      ∀ c, Config.get_delta_copy fuel cfg kwargs ≠ .ok c) := by
  constructor
  · intro hall
    have hfilter : kwargs.filter (fun kv => !cfg.isDirectParam kv.1) = [] := by
      rw [List.filter_eq_nil_iff]
      intro kv hkv
      rw [hall kv hkv]
      simp
    have hfilter2 : kwargs.filter (fun kv => cfg.isDirectParam kv.1)
        = kwargs := by
      rw [List.filter_eq_self]
      intro kv hkv
      exact hall kv hkv
    constructor
    · unfold Config.get_delta_copy
      rw [hfilter]
      rfl
    · intro hnodup
      unfold Config.applyDirect
      rw [hfilter2]
      constructor
      · intro nm v hmem
        rw [foldl_setParamValue_lookup kwargs cfg hnodup nm,
          find?_of_mem_nodup kwargs nm v hnodup hmem]
        have hdir : cfg.isDirectParam nm = true := hall (nm, v) hmem
        have hsome := lookupParam_isSome_of_isDirect cfg nm hdir
        cases hlp : cfg.lookupParam nm with
        | none => rw [hlp] at hsome; cases hsome
        | some p => rfl
      · intro nm hnotin
        rw [foldl_setParamValue_lookup kwargs cfg hnodup nm]
        have hfr : kwargs.find? (fun kv => kv.1 == nm) = none := by
          rw [List.find?_eq_none]
          intro kv hkv hpkv
          have hk : kv.1 = nm := by exact of_decide_eq_true hpkv
          apply hnotin kv.2
          have : kv = (nm, kv.2) := by
            rw [← hk]
          rw [← this]
          exact hkv
        rw [hfr]
  · intro hbad c
    obtain ⟨kv, hkv, hdir⟩ := hbad
    have hne : kwargs.filter (fun x => !cfg.isDirectParam x.1) ≠ [] := by
      intro hc
      rw [List.filter_eq_nil_iff] at hc
      have := hc kv hkv
      rw [hdir] at this
      simp at this
    have hempty : (kwargs.filter
        (fun x => !cfg.isDirectParam x.1)).isEmpty = false := by
      cases hc : kwargs.filter (fun x => !cfg.isDirectParam x.1) with
      | nil => exact absurd hc hne
      | cons a l => rfl
    unfold Config.get_delta_copy
    simp only [hempty, Bool.false_eq_true, if_false]
    cases fuel with
    | zero => simp
    | succ fuel =>
        show (match deltaCopyChildrenWith
            (fun c2 => Config.get_delta_copy fuel c2
              (kwargs.filter (fun x => !cfg.isDirectParam x.1)))
            (cfg.applyDirect kwargs).params with
          | Except.error e => Except.error e
          | Except.ok _ => Except.error PyError.runtimeError) ≠ Except.ok c
        cases hdc : deltaCopyChildrenWith
            (fun c2 => Config.get_delta_copy fuel c2
              (kwargs.filter (fun x => !cfg.isDirectParam x.1)))
            (cfg.applyDirect kwargs).params with
        | error e => simp
        | ok ps => simp

/-- A configuration with a direct parameter `x = 10` and a child parameter
`child` holding a *built* `Component` whose configuration has `y = 5`: the
exact scenario of the claim's example. -/
def nestedChildConfig : Config :=
  ((Config.init "Configuration" []).add "x" (.vint 10) none none false false
      none none).add
    "child"
    (.vcomp (Component.mk "Component"
      ((Config.init "Configuration" []).add "y" (.vint 5) none none false
        false none none) []))
    none none false true none none

/-- C3 counterexample: the dotted override `child.y = 7` on the claim's
example raises `RuntimeError` instead of updating the child's `y` — the
prefix is never stripped — while a direct override `x = 15` does produce a
copy with `x = 15`, the original keeping `x = 10`. -/
theorem get_delta_copy_dotted_counterexample :
    Config.get_delta_copy 5 nestedChildConfig [("child.y", .vint 7)] =
      .error .runtimeError ∧
    Config.get_delta_copy 5 nestedChildConfig [("x", .vint 15)] =
      .ok (nestedChildConfig.applyDirect [("x", .vint 15)]) ∧
    ((nestedChildConfig.applyDirect
        [("x", .vint 15)]).lookupParam "x").map Param.value
      = some (.vint 15) ∧
    (nestedChildConfig.lookupParam "x").map Param.value = some (.vint 10) :=
  ⟨rfl, rfl, rfl, rfl⟩

/-- Witness for C3 (amended) at the concrete configuration: the all-direct
branch succeeds and the dotted override can never return a copy. -/
theorem get_delta_copy_direct_or_error_witness :
    Config.get_delta_copy 5 nestedChildConfig [("x", .vint 15)] =
      .ok (nestedChildConfig.applyDirect [("x", .vint 15)]) ∧
    (∀ c, Config.get_delta_copy 5 nestedChildConfig [("child.y", .vint 7)]
      ≠ .ok c) := by
  constructor
  · exact ((get_delta_copy_direct_or_error 5 nestedChildConfig
      [("x", .vint 15)]).1 (by
        intro kv hkv
        rw [List.mem_singleton] at hkv
        rw [hkv]
        rfl)).1
  · exact (get_delta_copy_direct_or_error 5 nestedChildConfig
      [("child.y", .vint 7)]).2
      ⟨("child.y", .vint 7), List.mem_singleton.mpr rfl, rfl⟩

/-! ## C1: `build_component_from_key` builds without `post_build`/`validate` -/

/-- C1 (amended): for a registered and bound key whose constructed
configuration matches the registered class, `build_component_from_key`
instantiates the bound component class with exactly the configuration the
stored constructor returned from the stored kwargs, together with the given
build arguments, and leaves the registry untouched (with
`register_built_component = False`).  In particular neither `post_build()`
nor `validate()` is invoked on the configuration anywhere along the way. -/
theorem build_component_skips_post_build_and_validate (s : RegistryState)
    (k : RegistrationKey) (args : List (String × Value))
    (info : ConfigurationInfo) (compCls : String)
    (hreg : lookupKey s.REGISTRY k = some info)
    (hty : (info.constructor info.kwargs).cls = info.class_type)
    (hbound : lookupKey s.BINDINGS k = some compCls) :
    Registry.build_component_from_key s k false args =
      .ok (Component.mk compCls (info.constructor info.kwargs) args, s) := by
  unfold Registry.build_component_from_key Registry.is_in_registry
  rw [hreg]
  simp only [Option.isSome_some, Bool.not_true, Bool.false_eq_true, if_false,
    hty, ne_eq, not_true_eq_false, hbound]

/-- A configuration whose validation always fails: the default
configuration plus an always-false condition. -/
def failingConfig : Config :=
  (Config.init "BadConfiguration" []).add_condition (.constCond false)
    "always_fails" none

def failingKey : RegistrationKey := ⟨"bad", "testing", some ∅⟩

def failingInfo : ConfigurationInfo :=
  ⟨"BadConfiguration", fun _ => failingConfig, []⟩

/-- A registry in which `failingKey` is registered with the failing
configuration and bound to a component class. -/
def failingState : RegistryState :=
  { initialRegistryState with
      REGISTRY := [(failingKey, failingInfo)]
      BINDINGS := [(failingKey, "Component")] }

/-- C1 counterexample: building this registered and bound key *succeeds*
and hands the component a configuration on which `validate()` (strict)
would raise and whose `built` flag is still false — so
`build_component_from_key` ran neither `post_build()` nor `validate()`,
and no validation failure propagated, contrary to the claim. -/
theorem build_component_counterexample :
    Registry.build_component_from_key failingState failingKey false [] =
      .ok (Component.mk "Component" failingConfig [], failingState) ∧
    Config.validate 3 failingConfig true = .error .validationFailure ∧
    Config.validate 3 failingConfig false =
      .ok ⟨false, "BadConfiguration", some "Condition always_fails failed!"⟩ ∧
    failingConfig.builtFlag = false :=
  ⟨rfl, rfl, rfl, rfl⟩

/-- Witness for C1 (amended) at the concrete registry state. -/
theorem build_component_skips_witness :
    Registry.build_component_from_key failingState failingKey false [] =
      .ok (Component.mk "Component"
        (failingInfo.constructor failingInfo.kwargs) [], failingState) :=
  build_component_skips_post_build_and_validate failingState failingKey []
    failingInfo "Component" rfl rfl rfl

/-! ## C7: `check_registration_graph` checks isolates, not in-degrees -/

/-- Modelled from the spec's words for comparison: discard every root→node
edge whose target also has a non-root incoming edge (the pruning step the
claim attributes to `check_registration_graph`; the source performs no such
step). -/
def pruneStaleRootEdges (g : Graph) : Graph :=
  { nodes := g.nodes
    edges := g.edges.filter (fun e =>
      !(e.1 == ROOT_KEY &&
        g.edges.any (fun e2 => e2.2 == e.2 && !(e2.1 == ROOT_KEY)))) }

def keyA : RegistrationKey := ⟨"A", "testing", some ∅⟩
def keyB : RegistrationKey := ⟨"B", "testing", some ∅⟩
def keyC : RegistrationKey := ⟨"C", "testing", some ∅⟩

/-- A graph in which `B` is a non-root node with in-degree zero (also after
the spec's pruning, which removes nothing here) but out-degree one. -/
def danglingSourceGraph : Graph :=
  ⟨[ROOT_KEY, keyA, keyB, keyC], [(ROOT_KEY, keyA), (keyB, keyC)]⟩

/-- C7 counterexample: the claim says a non-root node with in-degree zero
after pruning raises `DisconnectedGraph`; on this graph `B` is such a node
(no pruning applies), yet `check_registration_graph` returns `True` — the
source only flags fully isolated nodes (degree zero in both directions). -/
theorem check_registration_graph_counterexample :
    check_registration_graph danglingSourceGraph = .ok true ∧
    keyB ∈ danglingSourceGraph.nodes ∧
    keyB ≠ ROOT_KEY ∧
    (pruneStaleRootEdges danglingSourceGraph).inDegree keyB = 0 ∧
    pruneStaleRootEdges danglingSourceGraph = danglingSourceGraph :=
  ⟨rfl, by decide, by decide, by decide, by decide⟩

/-- The claim's cycle example: `A` and `B` depend on each other. -/
def cycleGraph : Graph :=
  ⟨[ROOT_KEY, keyA, keyB], [(ROOT_KEY, keyA), (keyA, keyB), (keyB, keyA)]⟩

/-- The claim's stale-root-edge example: `B` hangs off the root *and* has a
real parent `A`. -/
def staleRootEdgeGraph : Graph :=
  ⟨[ROOT_KEY, keyA, keyB], [(ROOT_KEY, keyA), (ROOT_KEY, keyB), (keyA, keyB)]⟩

/-- C7 (amended): `check_registration_graph` performs no pruning and no
in-degree check: it raises `DisconnectedGraph` exactly when some node has
no incident edges at all (`nx.isolates`) and the graph has more than one
node; otherwise it raises `NotADAG` exactly when the graph is cyclic;
otherwise it returns `True`.  The claim's two examples behave as stated:
the two-node cycle raises `NotADAG`, and a node with a stale root edge plus
a real parent edge is not reported as disconnected. -/
theorem check_registration_graph_amended (g : Graph) :
    (check_registration_graph g = .error .disconnectedGraph ↔
      (g.isolates ≠ [] ∧ g.nodes.length > 1)) ∧
    (check_registration_graph g = .error .notADAG ↔
      ((g.isolates = [] ∨ g.nodes.length ≤ 1) ∧ g.isDAG = false)) ∧
    (check_registration_graph g = .ok true ↔
      ((g.isolates = [] ∨ g.nodes.length ≤ 1) ∧ g.isDAG = true)) ∧
    check_registration_graph cycleGraph = .error .notADAG ∧
    check_registration_graph staleRootEdgeGraph = .ok true := by
  have hiso : g.isolates ≠ [] ↔ g.isolates.length > 0 := by
    constructor
    · intro h
      cases hc : g.isolates with
      | nil => exact absurd hc h
      | cons a l => simp
    · intro h hc
      rw [hc] at h
      simp at h
  refine ⟨?_, ?_, ?_, rfl, rfl⟩
  · unfold check_registration_graph
    by_cases h : (g.isolates.length > 0 ∧ g.nodes.length > 1)
    · rw [if_pos h]
      simp only [true_iff]
      exact ⟨hiso.mpr h.1, h.2⟩
    · rw [if_neg h]
      constructor
      · intro hc
        by_cases hd : g.isDAG = true
        · rw [hd] at hc
          simp at hc
        · rw [Bool.not_eq_true] at hd
          rw [hd] at hc
          simp at hc
      · intro hx
        exact absurd ⟨hiso.mp hx.1, hx.2⟩ h
  · unfold check_registration_graph
    by_cases h : (g.isolates.length > 0 ∧ g.nodes.length > 1)
    · rw [if_pos h]
      constructor
      · intro hc
        simp at hc
      · intro hx
        rcases hx.1 with h1 | h1
        · exact absurd (hiso.mpr h.1) (fun hne => hne h1)
        · have := h.2
          omega
    · rw [if_neg h]
      by_cases hd : g.isDAG = true
      · rw [hd]
        constructor
        · intro hc
          simp at hc
        · intro hx
          cases hx.2
      · rw [Bool.not_eq_true] at hd
        rw [hd]
        constructor
        · intro _
          refine ⟨?_, rfl⟩
          rcases not_and_or.mp h with h1 | h1
          · left
            by_contra hne
            exact h1 (hiso.mp hne)
          · right
            omega
        · intro _
          rfl
  · unfold check_registration_graph
    by_cases h : (g.isolates.length > 0 ∧ g.nodes.length > 1)
    · rw [if_pos h]
      constructor
      · intro hc
        simp at hc
      · intro hx
        rcases hx.1 with h1 | h1
        · exact absurd (hiso.mpr h.1) (fun hne => hne h1)
        · have := h.2
          omega
    · rw [if_neg h]
      by_cases hd : g.isDAG = true
      · rw [hd]
        constructor
        · intro _
          refine ⟨?_, rfl⟩
          rcases not_and_or.mp h with h1 | h1
          · left
            by_contra hne
            exact h1 (hiso.mp hne)
          · right
            omega
        · intro _
          rfl
      · rw [Bool.not_eq_true] at hd
        rw [hd]
        constructor
        · intro hc
          simp at hc
        · intro hx
          cases hx.2

/-! ## C8: `clear` empties the graph entirely, root included -/

/-- C8 (amended): `clear()` resets every registry map and scope to empty,
and empties the dependency graph *completely*: afterwards the graph has no
nodes and no edges at all — in particular the synthetic root node is gone
(networkx's `DiGraph.clear` removes every node, and nothing re-adds
`ROOT_KEY`); the root-only graph exists only in the initial class-level
state. -/
theorem clear_resets_to_empty (s : RegistryState) :
    (Registry.clear s).REGISTRY = [] ∧
    (Registry.clear s).BINDINGS = [] ∧
    (Registry.clear s).BUILT_REGISTRY = [] ∧
    (Registry.clear s).REGISTRATION_METHODS = [] ∧
    (Registry.clear s).MODULE_SCOPE = none ∧
    (Registry.clear s).REGISTER_SCOPE = none ∧
    (Registry.clear s).REGISTERED_NAMESPACES = [] ∧
    (Registry.clear s).REGISTRATION_REGISTRY = [] ∧
    (Registry.clear s).DEPENDENCY_DAG.nodes = [] ∧
    (Registry.clear s).DEPENDENCY_DAG.edges = [] ∧
    ROOT_KEY ∉ (Registry.clear s).DEPENDENCY_DAG.nodes ∧
    initialRegistryState.DEPENDENCY_DAG.nodes = [ROOT_KEY] := by
  refine ⟨rfl, rfl, rfl, rfl, rfl, rfl, rfl, rfl, rfl, rfl, ?_, rfl⟩
  intro hc
  cases hc

/-- C8 counterexample: clearing (even the pristine initial state) does not
restore the root-only graph — the root node itself is removed. -/
theorem clear_removes_root_counterexample :
    (Registry.clear initialRegistryState).DEPENDENCY_DAG ≠
      initialRegistryState.DEPENDENCY_DAG ∧
    ROOT_KEY ∉ (Registry.clear initialRegistryState).DEPENDENCY_DAG.nodes ∧
    initialRegistryState.DEPENDENCY_DAG = ⟨[ROOT_KEY], []⟩ := by
  refine ⟨by decide, ?_, rfl⟩
  intro hc
  cases hc
